import Mathlib

/-!
Verification development for the brig.gs infrastructure program
(`src/__main__.py`, `src/components/database.py`,
`src/components/elasticache.py`, `src/components/fargateapp.py`).

The program is a declarative Pulumi stack: each Python class constructor
emits a fixed set of resource declarations.  We shallowly embed those
declarations as Lean structures, one field per argument passed in the
source, and prove properties of the declarations.

Modelling conventions:
* `pulumi.Input[str]` values are modelled as `String`; deferred outputs of
  other resources are modelled by the symbolic value type `Val`.
* `aws.ec2.get_vpc(id=...)` is modelled by an abstract lookup function
  `String → String` mapping a vpc id to its CIDR block.
* The result of a `pulumi_random` resource is not known at declaration
  time; where a claim inspects the resolved string (the RDS snapshot
  token) the construction is parameterised by the resolved value,
  together with the admissibility predicate `randomAdmissible` describing
  which strings the provider can produce for a given declaration.
* The `opts=pulumi.ResourceOptions(parent=...)` option of each
  declaration is recorded in the per-component `resources` list
  (`ResourceDecl.parent`), alongside the tag set of each declaration.
-/

/-- Tag sets (`tags: Mapping[str, str]`) as association lists. -/
abbrev Tags := List (String × String)

/-- Shared declaration schema of `pulumi_random`'s `RandomPassword` and
`RandomString` resources.  Fields not passed at a call site keep the
provider defaults (`lower`/`upper`/`numeric`/`special` enabled, all
minimum counts 0, no override of the special set). -/
structure RandomStringDecl where
  name : String
  length : Nat
  lower : Bool := true
  upper : Bool := true
  numeric : Bool := true
  special : Bool := true
  override_special : Option String := none
  min_lower : Nat := 0
  min_upper : Nat := 0
  min_numeric : Nat := 0
  min_special : Nat := 0
deriving DecidableEq, Repr

/-- Lower-case letters available to the random provider. -/
def lowerChars : List Char := "abcdefghijklmnopqrstuvwxyz".data

/-- Upper-case letters available to the random provider. -/
def upperChars : List Char := "ABCDEFGHIJKLMNOPQRSTUVWXYZ".data

/-- Digits available to the random provider. -/
def numericChars : List Char := "0123456789".data

/-- The provider's default special-character set, used when
`override_special` is not given. -/
def defaultSpecialChars : List Char := "!@#$%&*()-_=+[]\x7b\x7d<>:?".data

/-- The special characters a given declaration may draw from. -/
def RandomStringDecl.specialChars (d : RandomStringDecl) : List Char :=
  match d.override_special with
  | some s => s.data
  | none => defaultSpecialChars

/-- All characters a given declaration may draw from. -/
def RandomStringDecl.allowedChars (d : RandomStringDecl) : List Char :=
  (if d.lower then lowerChars else []) ++
  (if d.upper then upperChars else []) ++
  (if d.numeric then numericChars else []) ++
  (if d.special then d.specialChars else [])

/-- Number of characters of `s` that belong to the class `cls`. -/
def countOf (s : String) (cls : List Char) : Nat :=
  (s.data.filter (fun c => cls.contains c)).length

/-- Modelled from the `pulumi_random` provider semantics: a string is an
admissible result of a `RandomPassword`/`RandomString` declaration iff it
has the declared length, draws every character from the enabled character
classes, and meets each declared per-class minimum count (minimums
default to 0, so no class is guaranteed to occur unless its minimum is
set). -/
def randomAdmissible (d : RandomStringDecl) (s : String) : Bool :=
  (s.length == d.length) &&
  (s.data.all (fun c => d.allowedChars.contains c)) &&
  (decide (d.min_lower ≤ countOf s lowerChars)) &&
  (decide (d.min_upper ≤ countOf s upperChars)) &&
  (decide (d.min_numeric ≤ countOf s numericChars)) &&
  (decide (d.min_special ≤ countOf s d.specialChars))

/-- Symbolic deferred values (`pulumi.Output`): literals, stack
configuration secrets, output attributes of declared resources
(`Val.out resourceType resourceName attributeName`), results of
`pulumi_random` resources, the ambient region name, and
`pulumi.Output.concat` of two values. -/
inductive Val where
  | lit (s : String)
  | configSecret (key : String)
  | out (rtype rname fieldName : String)
  | randomResult (d : RandomStringDecl)
  | regionName
  | concat2 (a b : Val)
deriving DecidableEq, Repr

/-- Logical parent of a resource declaration inside one component:
either the component itself (`opts=ResourceOptions(parent=self)`) or a
sibling resource named by its attribute name. -/
inductive ParentRef where
  | component
  | res (rname : String)
deriving DecidableEq, Repr

/-- Uniform view of one primitive resource declaration: its resource
type, the attribute/local name it is bound to in the source, the Pulumi
resource name, its declared parent (`none` when the declaration carries
no `opts`, i.e. is a stack-level resource), whether the resource type
supports tags at all, and the tag set actually passed. -/
structure ResourceDecl where
  rtype : String
  rname : String
  pname : String
  parent : Option ParentRef
  taggable : Bool
  tags : Option Tags
deriving DecidableEq, Repr

/-- Character-level splice of `pulumi.Output.format`: every occurrence of
the placeholder `\x7b0\x7d` in the template is replaced by the argument. -/
def formatChars : List Char → List Char → List Char
  | [], _ => []
  | '\x7b' :: '0' :: '\x7d' :: rest, arg => arg ++ formatChars rest arg
  | c :: rest, arg => c :: formatChars rest arg

/-- `pulumi.Output.format(template, arg)` over resolved strings. -/
def outputFormat (template : String) (arg : String) : String :=
  ⟨formatChars template.data arg.data⟩

/-! ## Common resource declaration shapes -/

/-- One ingress/egress rule of an `aws.ec2.SecurityGroup`
(`SecurityGroupIngressArgs` / `SecurityGroupEgressArgs`). -/
structure SGRule where
  protocol : String
  from_port : Nat
  to_port : Nat
  cidr_blocks : List String
deriving DecidableEq, Repr

/-- An `aws.ec2.SecurityGroup` declaration. -/
structure SecurityGroup where
  pname : String
  description : String
  vpc_id : String
  ingress : List SGRule
  egress : List SGRule
  tags : Option Tags
deriving DecidableEq, Repr

/-- An `aws.rds.SubnetGroup` / `aws.elasticache.SubnetGroup` declaration. -/
structure SubnetGroup where
  pname : String
  description : String
  subnet_ids : List String
  tags : Option Tags
deriving DecidableEq, Repr

/-- An `aws.ssm.Parameter` declaration. -/
structure Parameter where
  pname : String
  type : String
  value : Val
  tags : Option Tags
deriving DecidableEq, Repr

/-! ## PrivateDatabase (`src/components/database.py`) -/

/-- `PrivateDatabaseArgs.__init__`: field defaults exactly as in the
source. -/
structure PrivateDatabaseArgs where
  vpc_id : String
  subnet_ids : List String
  db_name : String
  production : Bool := false
  disk_size : Nat := 10
  engine : String := "postgres"
  port : Nat := 5432
  engine_version : String := "13.7"
  instance_class : String := "db.t3.micro"
  username : String := "administrator"
  password : Option String := none
  tags : Option Tags := none
deriving DecidableEq, Repr

/-- An `aws.rds.Instance` declaration; `address` is the instance's
AWS-computed endpoint output. -/
structure Instance where
  pname : String
  db_subnet_group_name : String
  allocated_storage : Nat
  copy_tags_to_snapshot : Bool
  db_name : String
  engine : String
  instance_class : String
  engine_version : String
  vpc_security_group_ids : List Val
  username : String
  password : Val
  tags : Option Tags
  skip_final_snapshot : Bool
  final_snapshot_identifier : Option String
  address : Val
deriving DecidableEq, Repr

/-- The `random.RandomPassword(name, length=16, special=True,
override_special="@")` declaration of `PrivateDatabase.__init__`
(the local `password_result`).  The call passes no `opts`, so the
resource has no parent; see `PrivateDatabase.resources`. -/
def PrivateDatabase.password_result (name : String) : RandomStringDecl :=
  { name := name, length := 16, special := true, override_special := some "@" }

/-- The local `password` binding of `PrivateDatabase.__init__`: the
generated password's result when `args.password` is `None`, otherwise
the supplied password unchanged. -/
def PrivateDatabase.passwordValue (name : String) (args : PrivateDatabaseArgs) : Val :=
  match args.password with
  | none => Val.randomResult (PrivateDatabase.password_result name)
  | some p => Val.lit p

/-- The `random.RandomString(name, length=4, opts=...)` declaration of
`PrivateDatabase.__init__` (the local `snapshot_identifier`). -/
def PrivateDatabase.snapshot_identifier (name : String) : RandomStringDecl :=
  { name := name, length := 4 }

/-- The resources owned by a `PrivateDatabase` component
(`subnet_group`, `security_group`, `database`, `admin_password`).  The
construction is parameterised by the vpc-cidr lookup modelling
`aws.ec2.get_vpc` and by the resolved result `token` of the
`snapshot_identifier` random string. -/
structure PrivateDatabase where
  subnet_group : SubnetGroup
  security_group : SecurityGroup
  database : Instance
  admin_password : Parameter
deriving DecidableEq, Repr

/-- `PrivateDatabase.__init__`, field for field from the source. -/
def PrivateDatabase.make (lookup : String → String) (name : String)
    (args : PrivateDatabaseArgs) (token : String) : PrivateDatabase :=
  { subnet_group :=
      { pname := name
      , description := "Subnet group for " ++ name
      , subnet_ids := args.subnet_ids
      , tags := args.tags }
  , security_group :=
      { pname := name
      , description := "Security group for PrivateDatabase " ++ name
      , vpc_id := args.vpc_id
      , ingress := [{ protocol := "tcp", from_port := args.port, to_port := args.port,
                      cidr_blocks := [lookup args.vpc_id] }]
      , egress := [{ protocol := "-1", from_port := 0, to_port := 0,
                     cidr_blocks := ["0.0.0.0/0"] }]
      , tags := args.tags }
  , database :=
      { pname := name
      , db_subnet_group_name := name
      , allocated_storage := args.disk_size
      , copy_tags_to_snapshot := true
      , db_name := args.db_name
      , engine := args.engine
      , instance_class := args.instance_class
      , engine_version := args.engine_version
      , vpc_security_group_ids := [Val.out "aws.ec2.SecurityGroup" name "id"]
      , username := args.username
      , password := PrivateDatabase.passwordValue name args
      , tags := args.tags
      , skip_final_snapshot := if args.production then false else true
      , final_snapshot_identifier := some (outputFormat "name-\x7b0\x7d-deleted" token)
      , address := Val.out "aws.rds.Instance" name "address" }
  , admin_password :=
      { pname := name
      , type := "SecureString"
      , value := PrivateDatabase.passwordValue name args
      , tags := args.tags } }

/-- The primitive resource declarations of `PrivateDatabase.__init__`, in
source order, with the `parent` passed in each declaration's `opts`.
The `RandomPassword` is only declared when `args.password` is `None`,
and its call passes no `opts` at all (no parent); the two
`pulumi_random` resources take no tags argument (`taggable := false`). -/
def PrivateDatabase.resources (name : String) (args : PrivateDatabaseArgs) :
    List ResourceDecl :=
  [ { rtype := "aws.rds.SubnetGroup", rname := "subnet_group", pname := name,
      parent := some ParentRef.component, taggable := true, tags := args.tags }
  , { rtype := "aws.ec2.SecurityGroup", rname := "security_group", pname := name,
      parent := some ParentRef.component, taggable := true, tags := args.tags } ]
  ++ (if args.password.isNone then
       [ { rtype := "random.RandomPassword", rname := "password_result", pname := name,
           parent := none, taggable := false, tags := none } ]
      else [])
  ++ [ { rtype := "random.RandomString", rname := "snapshot_identifier", pname := name,
         parent := some ParentRef.component, taggable := false, tags := none }
     , { rtype := "aws.rds.Instance", rname := "database", pname := name,
         parent := some (ParentRef.res "subnet_group"), taggable := true, tags := args.tags }
     , { rtype := "aws.ssm.Parameter", rname := "admin_password", pname := name,
         parent := some ParentRef.component, taggable := true, tags := args.tags } ]

/-! ## PrivateRedis (`src/components/elasticache.py`) -/

/-- `PrivateRedisArgs.__init__`: field defaults exactly as in the
source. -/
structure PrivateRedisArgs where
  vpc_id : String
  subnet_ids : List String
  port : Nat := 6379
  instance_class : String := "cache.t2.micro"
  number_of_nodes : Nat := 1
  tags : Option Tags := none
deriving DecidableEq, Repr

/-- An `aws.elasticache.Cluster` declaration; `cache_nodes0_address` is
the address output of the first entry of the cluster's `cache_nodes`
output list. -/
structure Cluster where
  pname : String
  engine : String
  node_type : String
  port : Nat
  num_cache_nodes : Nat
  subnet_group_name : String
  security_group_ids : List Val
  final_snapshot_identifier : Option String
  tags : Option Tags
  cache_nodes0_address : Val
deriving DecidableEq, Repr

/-- The resources owned by a `PrivateRedis` component. -/
structure PrivateRedis where
  subnet_group : SubnetGroup
  security_group : SecurityGroup
  cluster : Cluster
deriving DecidableEq, Repr

/-- `PrivateRedis.__init__`, field for field from the source. -/
def PrivateRedis.make (lookup : String → String) (name : String)
    (args : PrivateRedisArgs) : PrivateRedis :=
  { subnet_group :=
      { pname := name ++ "-subnet-group"
      , description := "Subnet group for " ++ name
      , subnet_ids := args.subnet_ids
      , tags := args.tags }
  , security_group :=
      { pname := name
      , description := "Security group for Private Redis " ++ name
      , vpc_id := args.vpc_id
      , ingress := [{ protocol := "tcp", from_port := args.port, to_port := args.port,
                      cidr_blocks := [lookup args.vpc_id] }]
      , egress := [{ protocol := "-1", from_port := 0, to_port := 0,
                     cidr_blocks := ["0.0.0.0/0"] }]
      , tags := args.tags }
  , cluster :=
      { pname := name ++ "-redis-cluster"
      , engine := "redis"
      , node_type := args.instance_class
      , port := args.port
      , num_cache_nodes := args.number_of_nodes
      , subnet_group_name := name ++ "-subnet-group"
      , security_group_ids := [Val.out "aws.ec2.SecurityGroup" name "id"]
      , final_snapshot_identifier := some (name ++ "-redis-final-snapshot")
      , tags := args.tags
      , cache_nodes0_address :=
          Val.out "aws.elasticache.Cluster" (name ++ "-redis-cluster") "cache_nodes[0].address" } }

/-- The primitive resource declarations of `PrivateRedis.__init__`, in
source order, each with `opts=pulumi.ResourceOptions(parent=self)`. -/
def PrivateRedis.resources (name : String) (args : PrivateRedisArgs) :
    List ResourceDecl :=
  [ { rtype := "aws.elasticache.SubnetGroup", rname := "subnet_group",
      pname := name ++ "-subnet-group",
      parent := some ParentRef.component, taggable := true, tags := args.tags }
  , { rtype := "aws.ec2.SecurityGroup", rname := "security_group", pname := name,
      parent := some ParentRef.component, taggable := true, tags := args.tags }
  , { rtype := "aws.elasticache.Cluster", rname := "cluster",
      pname := name ++ "-redis-cluster",
      parent := some ParentRef.component, taggable := true, tags := args.tags } ]

/-! ## WebApp (`src/components/fargateapp.py`) -/

/-- One entry of a container's `environment` list
(`\x7b"name": ..., "value": ...\x7d`). -/
structure EnvVar where
  name : String
  value : Val
deriving DecidableEq, Repr

/-- One entry of a container's `secrets` list
(`\x7b"name": ..., "valueFrom": ...\x7d`). -/
structure ContainerSecret where
  name : String
  valueFrom : Val
deriving DecidableEq, Repr

/-- `WebAppArgs.__init__`: field defaults exactly as in the source. -/
structure WebAppArgs where
  vpc_id : String
  subnet_ids : List String
  image : String
  container_name : String
  cluster_arn : String
  register_with_loadbalancer : Bool := true
  port : Nat := 80
  memory : String := "512"
  cpu : String := "256"
  desired_container_count : Nat := 1
  log_group_retention : Nat := 3
  task_role_arn : Option String := none
  command : Option (List String) := none
  tags : Option Tags := none
  environment : Option (List EnvVar) := none
  secrets : Option (List ContainerSecret) := none
  target_group_arn : Option String := none
deriving DecidableEq, Repr

/-- An `aws.cloudwatch.LogGroup` declaration.  The source passes no
`tags` argument for the web app's log group. -/
structure LogGroup where
  pname : String
  retention_in_days : Nat
  tags : Option Tags
deriving DecidableEq, Repr

/-- The single statement of the task-execution role's trust policy,
embedding the `json.dumps(...)` literal of the source structurally. -/
structure TrustPolicy where
  version : String
  sid : String
  effect : String
  principal_service : String
  action : String
deriving DecidableEq, Repr

/-- An `aws.iam.Role` declaration.  The source passes no `tags` argument
for the web app's task execution role. -/
structure Role where
  pname : String
  assume_role_policy : TrustPolicy
  tags : Option Tags
deriving DecidableEq, Repr

/-- An `aws.iam.RolePolicyAttachment` declaration. -/
structure RolePolicyAttachment where
  pname : String
  role : Val
  policy_arn : String
deriving DecidableEq, Repr

/-- One entry of a container's `portMappings` list. -/
structure PortMapping where
  containerPort : Nat
  protocol : String
  mappingName : String
deriving DecidableEq, Repr

/-- The `logConfiguration` block of the container definition
(`awslogs_stream_pfx` embeds the `awslogs-stream-prefix` option). -/
structure LogConfiguration where
  logDriver : String
  awslogs_group : Val
  awslogs_region : Val
  awslogs_stream_pfx : String
deriving DecidableEq, Repr

/-- One container definition of the task definition's
`container_definitions` JSON list. -/
structure ContainerDef where
  name : String
  image : String
  secrets : Option (List ContainerSecret)
  environment : Option (List EnvVar)
  command : Option (List String)
  portMappings : List PortMapping
  logConfiguration : LogConfiguration
deriving DecidableEq, Repr

/-- An `aws.ecs.TaskDefinition` declaration. -/
structure TaskDefinition where
  pname : String
  family : String
  cpu : String
  memory : String
  network_mode : String
  execution_role_arn : Val
  task_role_arn : Option String
  requires_compatibilities : List String
  container_definitions : List ContainerDef
  tags : Option Tags
deriving DecidableEq, Repr

/-- An `aws.ecs.ServiceLoadBalancerArgs` entry. -/
structure ServiceLoadBalancerArgs where
  container_name : String
  container_port : Nat
  target_group_arn : Option String
deriving DecidableEq, Repr

/-- The `network_configuration` block of an `aws.ecs.Service`. -/
structure ServiceNetworkConfiguration where
  security_groups : List Val
  assign_public_ip : Bool
  subnets : List String
deriving DecidableEq, Repr

/-- An `aws.ecs.Service` declaration.  `load_balancers` is `Option`-typed
because the source passes either a one-element list or Python `None`
(the argument absent). -/
structure Service where
  pname : String
  cluster : String
  desired_count : Nat
  launch_type : String
  task_definition : Val
  load_balancers : Option (List ServiceLoadBalancerArgs)
  network_configuration : ServiceNetworkConfiguration
  tags : Option Tags
deriving DecidableEq, Repr

/-- The `aws.ecs.TaskDefinition` declaration of `WebApp.__init__`, field
for field from the source. -/
def WebApp.task_definition_decl (name : String) (args : WebAppArgs) : TaskDefinition :=
  { pname := name
  , family := name
  , cpu := args.cpu
  , memory := args.memory
  , network_mode := "awsvpc"
  , execution_role_arn := Val.out "aws.iam.Role" name "arn"
  , task_role_arn := args.task_role_arn
  , requires_compatibilities := ["FARGATE"]
  , container_definitions :=
      [ { name := args.container_name
        , image := args.image
        , secrets := args.secrets
        , environment := args.environment
        , command := args.command
        , portMappings := [{ containerPort := args.port, protocol := "tcp",
                             mappingName := "http" }]
        , logConfiguration :=
            { logDriver := "awslogs"
            , awslogs_group := Val.out "aws.cloudwatch.LogGroup" name "id"
            , awslogs_region := Val.regionName
            , awslogs_stream_pfx := name ++ "-" ++ args.container_name } } ]
  , tags := args.tags }

/-- The `aws.ecs.Service` declaration of `WebApp.__init__`: the
`load_balancers` argument is the one-element binding list when
`args.register_with_loadbalancer` holds and `None` (absent) otherwise,
exactly as the source's conditional expression. -/
def WebApp.service_decl (name : String) (args : WebAppArgs) : Service :=
  { pname := name
  , cluster := args.cluster_arn
  , desired_count := args.desired_container_count
  , launch_type := "FARGATE"
  , task_definition := Val.out "aws.ecs.TaskDefinition" name "arn"
  , load_balancers :=
      if args.register_with_loadbalancer then
        some [{ container_name := args.container_name
              , container_port := args.port
              , target_group_arn := args.target_group_arn }]
      else none
  , network_configuration :=
      { security_groups := [Val.out "aws.ec2.SecurityGroup" name "id"]
      , assign_public_ip := false
      , subnets := args.subnet_ids }
  , tags := args.tags }

/-- The resources owned by a `WebApp` component. -/
structure WebApp where
  security_group : SecurityGroup
  log_group : LogGroup
  task_execution_role : Role
  role_policy_attachment : RolePolicyAttachment
  task_definition : TaskDefinition
  service : Service
deriving DecidableEq, Repr

/-- `WebApp.__init__`, field for field from the source (the bare
`aws.iam.RolePolicyAttachment(...)` call is kept as a field here even
though the source does not bind it to an attribute). -/
def WebApp.make (lookup : String → String) (name : String) (args : WebAppArgs) : WebApp :=
  { security_group :=
      { pname := name
      , description := "Web application security group for " ++ name
      , vpc_id := args.vpc_id
      , ingress := [{ protocol := "tcp", from_port := args.port, to_port := args.port,
                      cidr_blocks := [lookup args.vpc_id] }]
      , egress := [{ protocol := "-1", from_port := 0, to_port := 0,
                     cidr_blocks := ["0.0.0.0/0"] }]
      , tags := args.tags }
  , log_group :=
      { pname := name
      , retention_in_days := args.log_group_retention
      , tags := none }
  , task_execution_role :=
      { pname := name
      , assume_role_policy :=
          { version := "2008-10-17", sid := "", effect := "Allow",
            principal_service := "ecs-tasks.amazonaws.com", action := "sts:AssumeRole" }
      , tags := none }
  , role_policy_attachment :=
      { pname := name
      , role := Val.out "aws.iam.Role" name "name"
      , policy_arn := "arn:aws:iam::aws:policy/service-role/AmazonECSTaskExecutionRolePolicy" }
  , task_definition := WebApp.task_definition_decl name args
  , service := WebApp.service_decl name args }

/-- The primitive resource declarations of `WebApp.__init__`, in source
order, with each declaration's `opts` parent.  The log group and the
task execution role are declared without a `tags` argument although both
resource types support tags. -/
def WebApp.resources (name : String) (args : WebAppArgs) : List ResourceDecl :=
  [ { rtype := "aws.ec2.SecurityGroup", rname := "security_group", pname := name,
      parent := some ParentRef.component, taggable := true, tags := args.tags }
  , { rtype := "aws.cloudwatch.LogGroup", rname := "log_group", pname := name,
      parent := some ParentRef.component, taggable := true, tags := none }
  , { rtype := "aws.iam.Role", rname := "task_execution_role", pname := name,
      parent := some ParentRef.component, taggable := true, tags := none }
  , { rtype := "aws.iam.RolePolicyAttachment", rname := "role_policy_attachment",
      pname := name,
      parent := some (ParentRef.res "task_execution_role"), taggable := false, tags := none }
  , { rtype := "aws.ecs.TaskDefinition", rname := "task_definition", pname := name,
      parent := some ParentRef.component, taggable := true, tags := args.tags }
  , { rtype := "aws.ecs.Service", rname := "service", pname := name,
      parent := some (ParentRef.res "task_definition"), taggable := true, tags := args.tags } ]

/-! ## Stack assembly (`src/__main__.py`)

Stack-reference outputs of the external `aws_vpc` / `aws_ecs` /
`aws_loadbalancer` stacks are deferred values not produced by this
program; they are modelled as opaque identifier strings.  The whole
assembly is parameterised by the vpc-cidr lookup and by the resolved
snapshot token exactly like the components themselves. -/

/-- `config.require_secret("recaptcha_site_key")`. -/
def recaptcha_site_key : Val := Val.configSecret "recaptcha_site_key"

/-- `config.require_secret("recaptcha_secret_key")`. -/
def recaptcha_secret_key : Val := Val.configSecret "recaptcha_secret_key"

/-- `config.require_secret("google_safe_browsing_api_key")`. -/
def google_safe_browsing_api_key : Val := Val.configSecret "google_safe_browsing_api_key"

/-- `vpc.require_output("vpc_id")`, an external stack output. -/
def stack_vpc_id : String := "stackref:aws_vpc:vpc_id"

/-- `vpc.require_output("private_subnet_ids")`, an external stack output. -/
def stack_subnet_ids : List String := ["stackref:aws_vpc:private_subnet_ids"]

/-- `cluster.get_output("cluster_arn")`, an external stack output. -/
def stack_cluster_arn : String := "stackref:aws_ecs:cluster_arn"

/-- `loadbalancer.require_output("target_group_arn")`, an external stack
output. -/
def stack_target_group_arn : String := "stackref:aws_loadbalancer:target_group_arn"

/-- The arguments of the `database.PrivateDatabase("kutt", ...)` call. -/
def db_args : PrivateDatabaseArgs :=
  { vpc_id := stack_vpc_id
  , subnet_ids := stack_subnet_ids
  , production := true
  , db_name := "kutt"
  , tags := some [("Name", "kutt"), ("repo", "jaxxstorm/brig.gs"),
                  ("environment", "production"), ("project", "kutt")] }

/-- `db = database.PrivateDatabase("kutt", args=db_args)`. -/
def db (lookup : String → String) (token : String) : PrivateDatabase :=
  PrivateDatabase.make lookup "kutt" db_args token

/-- The arguments of the `elasticache.PrivateRedis("kutt", ...)` call. -/
def cache_args : PrivateRedisArgs :=
  { vpc_id := stack_vpc_id
  , subnet_ids := stack_subnet_ids
  , tags := some [("Name", "kutt"), ("repo", "jaxxstorm/brig.gs"),
                  ("environment", "production"), ("project", "kutt")] }

/-- `cache = elasticache.PrivateRedis("kutt", args=cache_args)`. -/
def cache (lookup : String → String) : PrivateRedis :=
  PrivateRedis.make lookup "kutt" cache_args

/-- `jwt_secret = random.RandomPassword("kutt-jwt-secret", length=32)`:
only the length is passed, every other field keeps the provider
default. -/
def jwt_secret : RandomStringDecl := { name := "kutt-jwt-secret", length := 32 }

/-- `access_key.id`, an output of the `aws.iam.AccessKey("kutt", ...)`
declaration. -/
def access_key_id : Val := Val.out "aws.iam.AccessKey" "kutt" "id"

/-- `access_key.ses_smtp_password_v4`. -/
def access_key_ses_smtp_password_v4 : Val :=
  Val.out "aws.iam.AccessKey" "kutt" "ses_smtp_password_v4"

/-- `secret.arn`, an output of the `aws.secretsmanager.Secret("kutt")`
declaration. -/
def secret_arn : Val := Val.out "aws.secretsmanager.Secret" "kutt" "arn"

/-- The JSON object serialized into the `aws.secretsmanager.SecretVersion`
(`secret_string=pulumi.Output.secret(pulumi.Output.json_dumps(...))`), as
an association list in source key order. -/
def secret_string (lookup : String → String) (token : String) : List (String × Val) :=
  [ ("RECAPTCHA_SECRET_KEY", recaptcha_secret_key)
  , ("RECAPTCHA_SITE_KEY", recaptcha_site_key)
  , ("DB_PASSWORD", (db lookup token).database.password)
  , ("MAIL_USER", access_key_id)
  , ("MAIL_PASSWORD", access_key_ses_smtp_password_v4)
  , ("JWT_SECRET", Val.randomResult jwt_secret)
  , ("GOOGLE_SAFE_BROWSING_KEY", google_safe_browsing_api_key) ]

/-- The `secrets=[...]` list of the `fargate.WebAppArgs` call: one entry
per secret key, each `valueFrom` being
`pulumi.Output.concat(secret.arn, ":KEY::")`, in source order. -/
def kutt_secrets : List ContainerSecret :=
  [ { name := "RECAPTCHA_SECRET_KEY"
    , valueFrom := Val.concat2 secret_arn (Val.lit ":RECAPTCHA_SECRET_KEY::") }
  , { name := "RECAPTCHA_SITE_KEY"
    , valueFrom := Val.concat2 secret_arn (Val.lit ":RECAPTCHA_SITE_KEY::") }
  , { name := "DB_PASSWORD"
    , valueFrom := Val.concat2 secret_arn (Val.lit ":DB_PASSWORD::") }
  , { name := "JWT_SECRET"
    , valueFrom := Val.concat2 secret_arn (Val.lit ":JWT_SECRET::") }
  , { name := "MAIL_PASSWORD"
    , valueFrom := Val.concat2 secret_arn (Val.lit ":MAIL_PASSWORD::") }
  , { name := "MAIL_USER"
    , valueFrom := Val.concat2 secret_arn (Val.lit ":MAIL_USER::") }
  , { name := "GOOGLE_SAFE_BROWSING_KEY"
    , valueFrom := Val.concat2 secret_arn (Val.lit ":GOOGLE_SAFE_BROWSING_KEY::") } ]

/-- The `environment=[...]` list of the `fargate.WebAppArgs` call, entry
for entry in source order; note the leading space inside the name of the
`" DISALLOW_ANONYMOUS_LINKS"` entry, taken verbatim from the source. -/
def kutt_environment (lookup : String → String) (token : String) : List EnvVar :=
  [ { name := "DB_HOST", value := (db lookup token).database.address }
  , { name := "DB_NAME", value := Val.lit (db lookup token).database.db_name }
  , { name := "DB_USER", value := Val.lit (db lookup token).database.username }
  , { name := "REDIS_HOST", value := (cache lookup).cluster.cache_nodes0_address }
  , { name := "SITE_NAME", value := Val.lit "brig.gs" }
  , { name := "DEFAULT_DOMAIN", value := Val.lit "brig.gs" }
  , { name := " DISALLOW_ANONYMOUS_LINKS", value := Val.lit "true" }
  , { name := "MAIL_HOST", value := Val.lit "email-smtp.us-west-2.amazonaws.com" }
  , { name := "MAIL_PORT", value := Val.lit "587" }
  , { name := "MAIL_FROM", value := Val.lit "urls@mail.brig.gs" }
  , { name := "ADMIN_EMAILS", value := Val.lit "lee@leebriggs.co.uk" } ]

/-- The arguments of the `fargate.WebApp("kutt", ...)` call. -/
def kutt_args (lookup : String → String) (token : String) : WebAppArgs :=
  { vpc_id := stack_vpc_id
  , subnet_ids := stack_subnet_ids
  , image := "jaxxstorm/kutt:latest"
  , container_name := "kutt"
  , port := 3000
  , command := some ["npm", "start"]
  , secrets := some kutt_secrets
  , environment := some (kutt_environment lookup token)
  , target_group_arn := some stack_target_group_arn
  , task_role_arn := some "arn:task_role"
  , cluster_arn := stack_cluster_arn
  , register_with_loadbalancer := true
  , tags := some [("Name", "kutt"), ("repo", "jaxxstorm/brig.gs"),
                  ("environment", "production"), ("project", "kutt")] }

/-- `kutt = fargate.WebApp("kutt", args=kutt_args)`. -/
def kutt (lookup : String → String) (token : String) : WebApp :=
  WebApp.make lookup "kutt" (kutt_args lookup token)

/-- The top-level resource declarations of `src/__main__.py` in source
order (component instantiations appear as their component resource;
their children are listed by the per-component `resources`
definitions). -/
def stack_resources : List ResourceDecl :=
  [ { rtype := "jaxxstorm:index:Database", rname := "db", pname := "kutt",
      parent := none, taggable := false, tags := none }
  , { rtype := "jaxxstorm:index:Redis", rname := "cache", pname := "kutt",
      parent := none, taggable := false, tags := none }
  , { rtype := "random.RandomPassword", rname := "jwt_secret", pname := "kutt-jwt-secret",
      parent := none, taggable := false, tags := none }
  , { rtype := "aws.iam.User", rname := "mail_user", pname := "kutt",
      parent := none, taggable := true, tags := none }
  , { rtype := "aws.iam.UserPolicyAttachment", rname := "mail_policy_attachment",
      pname := "kutt-mail-policy-attachment",
      parent := some (ParentRef.res "mail_user"), taggable := false, tags := none }
  , { rtype := "aws.iam.AccessKey", rname := "access_key", pname := "kutt",
      parent := some (ParentRef.res "mail_user"), taggable := false, tags := none }
  , { rtype := "aws.secretsmanager.Secret", rname := "secret", pname := "kutt",
      parent := none, taggable := true, tags := none }
  , { rtype := "aws.secretsmanager.SecretVersion", rname := "secrets", pname := "kutt",
      parent := some (ParentRef.res "secret"), taggable := false, tags := none }
  , { rtype := "aws.iam.Role", rname := "task_role", pname := "kutt-task-role",
      parent := none, taggable := true, tags := none }
  , { rtype := "aws.iam.RolePolicyAttachment", rname := "task_role_attachment",
      pname := "kutt-iam-policy-attachment",
      parent := some (ParentRef.res "task_role"), taggable := false, tags := none }
  , { rtype := "jaxxstorm:index:WebApp", rname := "kutt", pname := "kutt",
      parent := none, taggable := false, tags := none }
  , { rtype := "aws.lb.ListenerRule", rname := "rule", pname := "brig.gs",
      parent := none, taggable := true, tags := none }
  , { rtype := "aws.iam.Policy", rname := "secret_policy",
      pname := "kutt-secret-access-policy",
      parent := some (ParentRef.res "kutt.task_execution_role"), taggable := true, tags := none }
  , { rtype := "aws.iam.RolePolicyAttachment", rname := "secret_policy_attachment",
      pname := "kutt-secret-policy-attachment",
      parent := some (ParentRef.res "kutt.task_execution_role"), taggable := false, tags := none }
  , { rtype := "cloudflare.Record", rname := "cname", pname := "web",
      parent := none, taggable := true, tags := none } ]

/-- Whether a resource declaration's parent chain reaches the owning
component within `fuel` steps, following `ParentRef.res` links through
the component's resource list. -/
def reaches (rs : List ResourceDecl) : Nat → Option ParentRef → Bool
  | _, some ParentRef.component => true
  | fuel + 1, some (ParentRef.res n) =>
      match rs.find? (fun r => r.rname == n) with
      | some r => reaches rs fuel r.parent
      | none => false
  | _, _ => false

/-! ## Claims -/

/-- The concrete template used for the RDS final snapshot name reduces to
plain concatenation around the spliced token. -/
theorem outputFormat_name_deleted (token : String) :
    outputFormat "name-\x7b0\x7d-deleted" token = "name-" ++ token ++ "-deleted" := by
  obtain ⟨l⟩ := token
  rfl

/-- Claim C3: for every `PrivateDatabase` and every `PrivateRedis`, the
security group's ingress rule set is exactly one TCP rule whose
`from_port` and `to_port` both equal the configured port and whose sole
source CIDR is the looked-up address range of the network `vpc_id`; the
egress rule set allows all protocols to all addresses (`0.0.0.0/0`). -/
theorem security_group_vpc_scoped (lookup : String → String)
    (dn rn token : String) (dargs : PrivateDatabaseArgs) (rargs : PrivateRedisArgs) :
    (PrivateDatabase.make lookup dn dargs token).security_group.ingress =
      [{ protocol := "tcp", from_port := dargs.port, to_port := dargs.port,
         cidr_blocks := [lookup dargs.vpc_id] }] ∧
    (PrivateDatabase.make lookup dn dargs token).security_group.egress =
      [{ protocol := "-1", from_port := 0, to_port := 0, cidr_blocks := ["0.0.0.0/0"] }] ∧
    (PrivateRedis.make lookup rn rargs).security_group.ingress =
      [{ protocol := "tcp", from_port := rargs.port, to_port := rargs.port,
         cidr_blocks := [lookup rargs.vpc_id] }] ∧
    (PrivateRedis.make lookup rn rargs).security_group.egress =
      [{ protocol := "-1", from_port := 0, to_port := 0, cidr_blocks := ["0.0.0.0/0"] }] :=
  ⟨rfl, rfl, rfl, rfl⟩

/-- Claim C4: for every `WebApp`, the service declaration carries the
load-balancer binding (naming the container and the configured port)
exactly when `register_with_loadbalancer` is true; when it is false, the
`load_balancers` field is entirely absent (`none`), and it is never an
empty list. -/
theorem webapp_load_balancer_binding (lookup : String → String)
    (name : String) (args : WebAppArgs) :
    (WebApp.make lookup name args).service.load_balancers =
      (if args.register_with_loadbalancer then
        some [{ container_name := args.container_name, container_port := args.port,
                target_group_arn := args.target_group_arn }]
       else none) ∧
    ((WebApp.make lookup name args).service.load_balancers = none ↔
      args.register_with_loadbalancer = false) ∧
    (WebApp.make lookup name args).service.load_balancers ≠ some [] := by
  cases h : args.register_with_loadbalancer <;>
    simp [WebApp.make, WebApp.service_decl, h]

/-- Claim C5: for every `PrivateDatabase`, the database instance's
`skip_final_snapshot` is false exactly when `args.production` is true,
and true exactly when `args.production` is false. -/
theorem db_skip_final_snapshot (lookup : String → String)
    (name token : String) (args : PrivateDatabaseArgs) :
    ((PrivateDatabase.make lookup name args token).database.skip_final_snapshot = false ↔
      args.production = true) ∧
    ((PrivateDatabase.make lookup name args token).database.skip_final_snapshot = true ↔
      args.production = false) := by
  cases h : args.production <;> simp [PrivateDatabase.make, h]

/-- Claim C9: for every `PrivateDatabase`, whatever component name is
passed, the `final_snapshot_identifier` is exactly
`"name-" ++ token ++ "-deleted"` with the literal word `name` as prefix:
the identifier is independent of the component's own name, so two
differently-named instances draw snapshot identifiers from the same
namespace. -/
theorem db_final_snapshot_literal_name (lookup : String → String)
    (name1 name2 token : String) (args : PrivateDatabaseArgs) :
    (PrivateDatabase.make lookup name1 args token).database.final_snapshot_identifier =
      some ("name-" ++ token ++ "-deleted") ∧
    (PrivateDatabase.make lookup name1 args token).database.final_snapshot_identifier =
      (PrivateDatabase.make lookup name2 args token).database.final_snapshot_identifier := by
  refine ⟨?_, rfl⟩
  show some (outputFormat "name-\x7b0\x7d-deleted" token) = _
  rw [outputFormat_name_deleted]

/-- Claim C6: for every `PrivateDatabase`, the database instance's
`final_snapshot_identifier` is non-null and splices in the result of the
length-4 `RandomString` declared per deployment: for any admissible
result `token` of that declaration, the identifier is
`some ("name-" ++ token ++ "-deleted")` with `token` of length exactly 4
(no persistent counter is involved: the identifier is a function of the
fresh random token alone). -/
theorem db_final_snapshot_random_token (lookup : String → String)
    (name : String) (args : PrivateDatabaseArgs) (token : String)
    (h : randomAdmissible (PrivateDatabase.snapshot_identifier name) token = true) :
    token.length = 4 ∧
    (PrivateDatabase.make lookup name args token).database.final_snapshot_identifier =
      some ("name-" ++ token ++ "-deleted") := by
  refine ⟨?_, ?_⟩
  · simp [randomAdmissible, PrivateDatabase.snapshot_identifier] at h
    exact h.1
  · show some (outputFormat "name-\x7b0\x7d-deleted" token) = _
    rw [outputFormat_name_deleted]

/-- Concrete witness for `db_final_snapshot_random_token`: the token
`"abcd"` is an admissible result of the length-4 random string, and the
stack's database (`db_args`, component name `"kutt"`) then declares the
final snapshot identifier `"name-abcd-deleted"`. -/
theorem db_final_snapshot_random_token_witness :
    "abcd".length = 4 ∧
    (PrivateDatabase.make (fun _ => "10.0.0.0/16") "kutt" db_args "abcd").database.final_snapshot_identifier =
      some ("name-" ++ "abcd" ++ "-deleted") :=
  db_final_snapshot_random_token (fun _ => "10.0.0.0/16") "kutt" db_args "abcd" (by decide)

/-- Claim C1 counterexample: in the stack's own database (constructed
with `args.password = None`), the bound password is the result of the
declared `RandomPassword`, and the 16-character string
`"aAbBcCdD11223344"` is an admissible result of that declaration while
containing zero characters of the restricted allowed-symbol set
(`"@"`): a generated password need not contain any symbol. -/
theorem db_generated_password_counterexample :
    (PrivateDatabase.make (fun _ => "10.0.0.0/16") "kutt" db_args "abcd").database.password =
      Val.randomResult (PrivateDatabase.password_result "kutt") ∧
    randomAdmissible (PrivateDatabase.password_result "kutt") "aAbBcCdD11223344" = true ∧
    countOf "aAbBcCdD11223344" (PrivateDatabase.password_result "kutt").specialChars = 0 :=
  ⟨rfl, by decide, by decide⟩

/-- Claim C1 (amended): when `args.password` is `None`, the database
instance binds the result of a `RandomPassword` declared with length
exactly 16 whose only allowed symbol is `"@"` and whose `min_special`
stays at the provider default 0 — so every admissible result has length
16 over lower/upper/numeric/`"@"` characters, but at least one symbol is
not guaranteed; when a password is supplied, it is bound to the database
instance unchanged. -/
theorem db_password_binding (lookup : String → String) (name token : String)
    (args : PrivateDatabaseArgs) :
    (args.password = none →
      (PrivateDatabase.make lookup name args token).database.password =
        Val.randomResult (PrivateDatabase.password_result name) ∧
      (PrivateDatabase.password_result name).length = 16 ∧
      (PrivateDatabase.password_result name).override_special = some "@" ∧
      (PrivateDatabase.password_result name).min_special = 0 ∧
      (∀ s, randomAdmissible (PrivateDatabase.password_result name) s = true →
        s.length = 16 ∧
        ∀ c ∈ s.data, c ∈ (PrivateDatabase.password_result name).allowedChars)) ∧
    (∀ p, args.password = some p →
      (PrivateDatabase.make lookup name args token).database.password = Val.lit p) := by
  constructor
  · intro hp
    refine ⟨?_, rfl, rfl, rfl, ?_⟩
    · simp [PrivateDatabase.make, PrivateDatabase.passwordValue, hp]
    · intro s hs
      simp [randomAdmissible, PrivateDatabase.password_result, List.all_eq_true,
        List.contains] at hs
      exact ⟨hs.1, hs.2⟩
  · intro p hp
    simp [PrivateDatabase.make, PrivateDatabase.passwordValue, hp]

/-- Concrete witness for `db_password_binding`: applied to the stack's
own arguments (no password supplied) it yields the generated binding and
forces every admissible result — e.g. `"aAbBcCdD11223344"` — to have
length 16; applied to the same arguments with password `"s3cret"`
supplied, the instance binds `"s3cret"` unchanged. -/
theorem db_password_binding_witness :
    (PrivateDatabase.make (fun _ => "10.0.0.0/16") "kutt" db_args "abcd").database.password =
      Val.randomResult (PrivateDatabase.password_result "kutt") ∧
    "aAbBcCdD11223344".length = 16 ∧
    (PrivateDatabase.make (fun _ => "10.0.0.0/16") "kutt"
        { db_args with password := some "s3cret" } "abcd").database.password =
      Val.lit "s3cret" := by
  have h := db_password_binding (fun _ => "10.0.0.0/16") "kutt" "abcd" db_args
  have h2 := db_password_binding (fun _ => "10.0.0.0/16") "kutt" "abcd"
    { db_args with password := some "s3cret" }
  exact ⟨(h.1 rfl).1, ((h.1 rfl).2.2.2.2 "aAbBcCdD11223344" (by decide)).1,
    h2.2 "s3cret" rfl⟩

/-- Claim C2 counterexample: the stack's `WebApp` is instantiated with a
non-empty tag set, yet its log group declaration carries no tags at all
— so not every primitive resource carries the caller's tag set. -/
theorem webapp_untagged_resource_counterexample :
    (kutt_args (fun _ => "10.0.0.0/16") "abcd").tags =
      some [("Name", "kutt"), ("repo", "jaxxstorm/brig.gs"),
            ("environment", "production"), ("project", "kutt")] ∧
    ((WebApp.resources "kutt" (kutt_args (fun _ => "10.0.0.0/16") "abcd")).filter
        (fun r => r.rname == "log_group")).map (fun r => r.tags) = [none] ∧
    (none : Option Tags) ≠ (kutt_args (fun _ => "10.0.0.0/16") "abcd").tags :=
  ⟨rfl, rfl, by decide⟩

/-- Claim C2 (amended): every taggable primitive resource of
`PrivateDatabase` and `PrivateRedis` carries exactly the caller's tag
set, unmutated (the two `pulumi_random` declarations take no tags
argument); in `WebApp` the security group, task definition and service
carry exactly the caller's tags, but the log group and the task
execution role are declared with no tags. -/
theorem component_resource_tags (nd nr nw : String) (ad : PrivateDatabaseArgs)
    (ar : PrivateRedisArgs) (aw : WebAppArgs) :
    ((PrivateDatabase.resources nd ad).filter (fun r => r.taggable)).map
        (fun r => (r.rname, r.tags)) =
      [("subnet_group", ad.tags), ("security_group", ad.tags),
       ("database", ad.tags), ("admin_password", ad.tags)] ∧
    ((PrivateRedis.resources nr ar).filter (fun r => r.taggable)).map
        (fun r => (r.rname, r.tags)) =
      [("subnet_group", ar.tags), ("security_group", ar.tags), ("cluster", ar.tags)] ∧
    ((WebApp.resources nw aw).filter (fun r => r.taggable)).map
        (fun r => (r.rname, r.tags)) =
      [("security_group", aw.tags), ("log_group", none),
       ("task_execution_role", none), ("task_definition", aw.tags),
       ("service", aw.tags)] := by
  refine ⟨?_, rfl, rfl⟩
  cases hp : ad.password <;> simp [PrivateDatabase.resources, hp]

/-- Claim C7: in a `PrivateDatabase` constructed without a supplied
password, the generated `RandomPassword` declaration carries no parent
(its call passes no `opts`), so the component's resources do not all
reach the component through parent links — the ownership tree is
broken exactly at the derived secret. -/
theorem db_password_resource_unparented :
    ((PrivateDatabase.resources "kutt" db_args).filter
        (fun r => r.rname == "password_result")).map
        (fun r => (r.rtype, r.parent)) =
      [("random.RandomPassword", none)] ∧
    ((PrivateDatabase.resources "kutt" db_args).all
        (fun r => reaches (PrivateDatabase.resources "kutt" db_args)
          (PrivateDatabase.resources "kutt" db_args).length r.parent)) = false ∧
    ((PrivateDatabase.resources "kutt" db_args).filter
        (fun r => !(r.rname == "password_result"))).all
        (fun r => reaches (PrivateDatabase.resources "kutt" db_args)
          (PrivateDatabase.resources "kutt" db_args).length r.parent) = true :=
  ⟨rfl, by decide, by decide⟩

/-- Claim C8: the stack declares exactly one secret-store entry (one
`aws.secretsmanager.Secret` with one `SecretVersion`), whose value is a
single JSON object with exactly the seven fixed keys in source order;
`DB_PASSWORD` is exactly the `PrivateDatabase` component's password
output (the generated `RandomPassword` result); and for every key of the
bundle the web app receives a secret reference whose `valueFrom` is the
per-key sub-path `secret.arn ++ ":" ++ key ++ "::"`. -/
theorem stack_secret_bundle (lookup : String → String) (token : String) :
    (stack_resources.filter (fun r => r.rtype == "aws.secretsmanager.Secret")).length = 1 ∧
    (stack_resources.filter (fun r => r.rtype == "aws.secretsmanager.SecretVersion")).length = 1 ∧
    (secret_string lookup token).map Prod.fst =
      ["RECAPTCHA_SECRET_KEY", "RECAPTCHA_SITE_KEY", "DB_PASSWORD", "MAIL_USER",
       "MAIL_PASSWORD", "JWT_SECRET", "GOOGLE_SAFE_BROWSING_KEY"] ∧
    (secret_string lookup token).lookup "DB_PASSWORD" =
      some ((db lookup token).database.password) ∧
    (db lookup token).database.password =
      Val.randomResult (PrivateDatabase.password_result "kutt") ∧
    (((secret_string lookup token).map Prod.fst).all (fun k =>
      kutt_secrets.contains
        { name := k, valueFrom := Val.concat2 secret_arn (Val.lit (":" ++ k ++ "::")) })) =
      true :=
  ⟨rfl, rfl, rfl, rfl, rfl, rfl⟩

/-- Claim C10: the stack passes the `WebApp` an environment entry whose
name is `" DISALLOW_ANONYMOUS_LINKS"` — with a leading space — and value
`"true"`; no entry is named `"DISALLOW_ANONYMOUS_LINKS"`; and the task
definition injects `args.environment` into the (single) container
definition verbatim, for every `WebApp` and in particular for the
stack's. -/
theorem stack_disallow_anonymous_links_env (lookup : String → String) (token : String) :
    (kutt_environment lookup token).contains
      { name := " DISALLOW_ANONYMOUS_LINKS", value := Val.lit "true" } = true ∧
    ((kutt_environment lookup token).filter
      (fun e => e.name == "DISALLOW_ANONYMOUS_LINKS")) = [] ∧
    (kutt_args lookup token).environment = some (kutt_environment lookup token) ∧
    (∀ (n : String) (a : WebAppArgs),
      (WebApp.task_definition_decl n a).container_definitions.map
        (fun c => c.environment) = [a.environment]) ∧
    ((kutt lookup token).task_definition.container_definitions.map
      (fun c => c.environment)) = [some (kutt_environment lookup token)] :=
  ⟨rfl, rfl, rfl, fun _ _ => rfl, rfl⟩
